import Mathlib

set_option linter.unusedVariables false

/-!
Verification of the UnityPackage native-interop fragments.

The repository holds two source files:
* `src/Runtime/Plugins/Android/multiset_stub.c` — a stub localization plugin
  whose three entry points (`_LoadModels`, `_LoadMaps`, `_Localize`) are
  embedded below directly from the C source.
* `src/Runtime/Plugins/iOS/BackgroundUploader.h` — an Objective-C interface
  declaration with no method bodies; its operation signatures are embedded
  from the header, and the behaviour of the upload coordinator (which the
  repository does not implement) is modelled from the specification where a
  claim requires it.

C strings are embedded as lists of byte values; `float` fields, which the
stub only ever zero-initializes, are embedded as rationals; pointer
arguments that may be null are embedded as `Option` values.
-/

/-- A C string (or raw byte buffer) as a list of byte values. -/
abbrev CStr := List Nat

/-- Length of the text held in a C character buffer: the number of bytes
before the first NUL terminator (the whole buffer if no NUL occurs). -/
def cStrLen (s : CStr) : Nat := (s.takeWhile (fun b => b != 0)).length

/-- Embedding of the C struct `LocalizationResult` from
`multiset_stub.c`: `bool poseFound; float positionX, positionY, positionZ;
float rotationX, rotationY, rotationZ, rotationW; int num_matches;
char mapIds[1024]; float confidence;`. The fixed array `mapIds[1024]` is a
byte list whose length is the declared capacity. -/
structure LocalizationResult where
  poseFound : Bool
  positionX : ℚ
  positionY : ℚ
  positionZ : ℚ
  rotationX : ℚ
  rotationY : ℚ
  rotationZ : ℚ
  rotationW : ℚ
  num_matches : Int
  mapIds : CStr
  confidence : ℚ
  deriving Repr, DecidableEq

/-- Declared capacity of the `mapIds` field: `char mapIds[1024]`. -/
def mapIdsCapacity : Nat := 1024

/-- The record produced by the C initializer `LocalizationResult result = {0};`:
every scalar field is zero, `poseFound` is `false`, and all 1024 bytes of
`mapIds` are zero. -/
def zeroLocalizationResult : LocalizationResult :=
  { poseFound := false
    positionX := 0, positionY := 0, positionZ := 0
    rotationX := 0, rotationY := 0, rotationZ := 0, rotationW := 0
    num_matches := 0
    mapIds := List.replicate mapIdsCapacity 0
    confidence := 0 }

/-- Structural validity of a `LocalizationResult` record: the `mapIds`
buffer has exactly its declared fixed capacity of 1024 bytes. -/
def LocalizationResult.structValid (r : LocalizationResult) : Prop :=
  r.mapIds.length = mapIdsCapacity

instance (r : LocalizationResult) : Decidable r.structValid := by
  unfold LocalizationResult.structValid
  infer_instance

/-- Embedding of `bool _LoadModels() { return false; }`. -/
def _LoadModels : Bool := false

/-- Embedding of
`bool _LoadMaps(const char* dbDirPath, const char* mapIdentifier) { return false; }`. -/
def _LoadMaps (dbDirPath mapIdentifier : CStr) : Bool := false

/-- Embedding of the C function `_Localize` from `multiset_stub.c`: it
ignores every argument, zero-initializes a `LocalizationResult` with `{0}`
and returns it by value. The `void* imageData` argument may be null, hence
`Option`; `int width, height` are machine integers, hence `Int`. -/
def _Localize (mapCode mapSetCode : CStr)
    (isRightHanded convertToGeoCoordinates : Bool)
    (fx fy px py : ℚ)
    (imageData : Option (List Nat)) (width height : Int)
    (hintMapCodes hintPosition geoCoordinates : CStr) : LocalizationResult :=
  zeroLocalizationResult

/-!
## Upload coordinator

`BackgroundUploader.h` declares the interface only:

* `+ (instancetype)sharedInstance;`
* `- (int)startBackgroundUpload:(NSString *)filePath toURL:(NSString *)uploadURL contentType:(NSString *)contentType;`
* `- (float)getUploadProgress:(int)uploadId;`
* `- (void)cancelUpload:(int)uploadId;`
* `- (void)setupCompletionCallback:(void (*)(int, BOOL, const char *))callback;`

The callback type below is embedded from the header; the behaviour of the
operations, absent from the repository, is modelled from the specification.
-/

/-- Embedding of the callback function-pointer type
`void (*)(int, BOOL, const char *)` from `BackgroundUploader.h`:
an `int` upload id, a `BOOL` success flag, and a possibly-null C string
message, returning nothing. -/
def CompletionCallback : Type := Int → Bool → Option CStr → Unit

/-- A callback delivery event: the (id, success flag, optional message)
triple passed to the registered completion callback. -/
abbrev CallbackEvent := Int × Bool × Option CStr

/-- Modelled from the spec: the per-upload state machine
`Pending -> InProgress -> {Succeeded, Failed, Cancelled}` of the upload
coordinator, whose implementation is absent from the repository. -/
inductive UploadState where
  | pending
  | inProgress
  | succeeded
  | failed
  | cancelled
  deriving Repr, DecidableEq

/-- Modelled from the spec: terminal upload states are succeeded, failed
and cancelled. -/
def UploadState.isTerminal : UploadState → Bool
  | .succeeded => true
  | .failed => true
  | .cancelled => true
  | _ => false

/-- Modelled from the spec: one tracked upload — an integer identifier, a
state-machine state, and a progress fraction. -/
structure UploadTask where
  id : Int
  state : UploadState
  progress : ℚ
  deriving Repr, DecidableEq

/-- Modelled from the spec: the shared coordinator's state — the registry
of tracked uploads, the next identifier to allocate, and the registered
completion callback (last registration wins). -/
structure UploaderState where
  tasks : List UploadTask
  nextId : Int
  callback : Option CompletionCallback

/-- Modelled from the spec: the coordinator's state on first access of the
shared instance — no tracked uploads, identifiers from 1, no callback. -/
def initialUploaderState : UploaderState :=
  { tasks := [], nextId := 1, callback := none }

/-- Modelled from the spec: the sentinel upload id returned by
`startBackgroundUpload` when validation of the file path or URL fails. -/
def invalidUploadId : Int := -1

/-- Modelled from the spec: the defined sentinel progress value returned
by `getUploadProgress` for an unknown or already-terminal id. -/
def progressSentinel : ℚ := -1

/-- Modelled from the spec: `startBackgroundUpload` validates its
arguments (validation outcome supplied by the host as `valid`), and on
success enqueues a fresh pending task and returns its newly allocated id;
on validation failure it returns the sentinel id and tracks nothing. -/
def startBackgroundUpload (s : UploaderState)
    (filePath uploadURL contentType : CStr) (valid : Bool) :
    UploaderState × Int :=
  if valid then
    ({ s with
        tasks := s.tasks ++ [{ id := s.nextId, state := .pending, progress := 0 }]
        nextId := s.nextId + 1 },
     s.nextId)
  else
    (s, invalidUploadId)

/-- Modelled from the spec: `getUploadProgress` returns the current
progress fraction for a known, non-terminal id and the defined sentinel
for an unknown or already-terminal id. -/
def getUploadProgress (s : UploaderState) (uploadId : Int) : ℚ :=
  match s.tasks.find? (fun t => t.id == uploadId) with
  | some t => if t.state.isTerminal then progressSentinel else t.progress
  | none => progressSentinel

/-- Modelled from the spec: a progress update from the background transfer
subsystem moves a tracked, non-terminal upload to `inProgress` with the
new fraction; terminal and unknown ids are left untouched. -/
def updateProgress (s : UploaderState) (uploadId : Int) (p : ℚ) :
    UploaderState :=
  { s with
      tasks := s.tasks.map (fun t =>
        if t.id == uploadId && !t.state.isTerminal then
          { t with state := .inProgress, progress := p }
        else t) }

/-- Modelled from the spec: the transfer subsystem reports a terminal
outcome for an upload; a tracked, non-terminal upload moves to
`succeeded`/`failed` and exactly one callback event is delivered; a
terminal or unknown id is a no-op with no delivery. -/
def completeUpload (s : UploaderState) (uploadId : Int) (success : Bool)
    (msg : Option CStr) : UploaderState × List CallbackEvent :=
  match s.tasks.find? (fun t => t.id == uploadId) with
  | some t =>
    if t.state.isTerminal then (s, [])
    else
      ({ s with
          tasks := s.tasks.map (fun u =>
            if u.id == uploadId then
              { u with state := if success then .succeeded else .failed }
            else u) },
       [(uploadId, success, msg)])
  | none => (s, [])

/-- Modelled from the spec: `cancelUpload` requests cancellation; a
tracked, non-terminal upload moves to `cancelled` and its terminal
callback event is delivered; an unknown or already-terminal id is a
no-op with no delivery. -/
def cancelUpload (s : UploaderState) (uploadId : Int) :
    UploaderState × List CallbackEvent :=
  match s.tasks.find? (fun t => t.id == uploadId) with
  | some t =>
    if t.state.isTerminal then (s, [])
    else
      ({ s with
          tasks := s.tasks.map (fun u =>
            if u.id == uploadId then { u with state := .cancelled } else u) },
       [(uploadId, false, none)])
  | none => (s, [])

/-- Modelled from the spec: `setupCompletionCallback` registers the single
process-wide completion callback; the last registration wins. -/
def setupCompletionCallback (s : UploaderState) (cb : CompletionCallback) :
    UploaderState :=
  { s with callback := some cb }

/-- Modelled from the spec: an operation applied to the coordinator by the
host application or the transfer subsystem. -/
inductive UploaderOp where
  | start (filePath uploadURL contentType : CStr) (valid : Bool)
  | update (uploadId : Int) (p : ℚ)
  | complete (uploadId : Int) (success : Bool) (msg : Option CStr)
  | cancel (uploadId : Int)
  | setCallback (cb : CompletionCallback)

/-- Modelled from the spec: applying one operation to a coordinator state,
discarding returned ids and callback events. -/
def applyOp (s : UploaderState) : UploaderOp → UploaderState
  | .start fp url ct valid => (startBackgroundUpload s fp url ct valid).1
  | .update uploadId p => updateProgress s uploadId p
  | .complete uploadId success msg => (completeUpload s uploadId success msg).1
  | .cancel uploadId => (cancelUpload s uploadId).1
  | .setCallback cb => setupCompletionCallback s cb

/-- Modelled from the spec: the coordinator state after a sequence of
operations starting from `initialUploaderState`. -/
def runOps (ops : List UploaderOp) : UploaderState :=
  ops.foldl applyOp initialUploaderState

/-- The upload id returned to the caller by one `start` operation applied
in state `s` (the sentinel id for validation failures or non-start
operations, which return no fresh id). -/
def opReturnedId (s : UploaderState) : UploaderOp → Int
  | .start fp url ct valid => (startBackgroundUpload s fp url ct valid).2
  | _ => invalidUploadId

/-- The set of ids returned by the `start` operations of a trace run from
state `s`. -/
def returnedIds (s : UploaderState) : List UploaderOp → List Int
  | [] => []
  | op :: ops => opReturnedId s op :: returnedIds (applyOp s op) ops

/- ### Helper lemmas -/

/-- The text length of a buffer never exceeds the buffer's length. -/
theorem cStrLen_le_length (s : CStr) : cStrLen s ≤ s.length := by
  unfold cStrLen
  induction s with
  | nil => simp
  | cons a l ih =>
    rw [List.takeWhile_cons]
    cases h : (a != 0) with
    | false => simp
    | true =>
      simp only [if_pos, List.length_cons]
      omega

/-- An all-zero buffer holds the empty text. -/
theorem cStrLen_replicate_zero (n : Nat) : cStrLen (List.replicate n 0) = 0 := by
  cases n with
  | zero => rfl
  | succ m => simp [cStrLen, List.replicate_succ, List.takeWhile_cons]

/-- `find?` commutes with mapping a function that preserves the value of
the search predicate. -/
theorem find?_map_pres (p : UploadTask → Bool) (f : UploadTask → UploadTask)
    (hf : ∀ u, p (f u) = p u) (l : List UploadTask) :
    (l.map f).find? p = Option.map f (l.find? p) := by
  induction l with
  | nil => rfl
  | cons a l ih =>
    simp only [List.map_cons, List.find?]
    rw [hf a]
    cases p a with
    | true => rfl
    | false => exact ih

/-- Mapping an id-preserving function over the registry keeps every
member's id among the original ids. -/
theorem mem_map_id_preserved (l : List UploadTask)
    (f : UploadTask → UploadTask) (hf : ∀ u, (f u).id = u.id)
    (t : UploadTask) (ht : t ∈ l.map f) : ∃ u ∈ l, u.id = t.id := by
  rcases List.mem_map.mp ht with ⟨u, hu, hut⟩
  exact ⟨u, hu, by rw [← hut, hf]⟩

/-- Every tracked task id either was tracked before the operation or is
the id the operation returned. -/
theorem applyOp_ids (s : UploaderState) (op : UploaderOp) (t : UploadTask)
    (ht : t ∈ (applyOp s op).tasks) :
    (∃ u ∈ s.tasks, u.id = t.id) ∨ t.id = opReturnedId s op := by
  cases op with
  | start fp url ct valid =>
    simp only [applyOp, opReturnedId, startBackgroundUpload] at ht ⊢
    by_cases hv : valid = true
    · simp [hv] at ht ⊢
      rcases ht with h | h
      · exact Or.inl ⟨t, h, rfl⟩
      · exact Or.inr (by simp [h])
    · simp [hv] at ht ⊢
      exact Or.inl ⟨t, ht, rfl⟩
  | update uploadId p =>
    simp only [applyOp, updateProgress] at ht
    refine Or.inl (mem_map_id_preserved s.tasks _ ?_ t ht)
    intro u
    by_cases hc : (u.id == uploadId && !u.state.isTerminal) = true
    · simp [hc]
    · simp [hc]
  | complete uploadId success msg =>
    simp only [applyOp, completeUpload] at ht
    cases hf : s.tasks.find? (fun t => t.id == uploadId) with
    | none => simp [hf] at ht; exact Or.inl ⟨t, ht, rfl⟩
    | some u =>
      simp only [hf] at ht
      by_cases hterm : u.state.isTerminal = true
      · simp [hterm] at ht; exact Or.inl ⟨t, ht, rfl⟩
      · simp only [hterm, if_false, Bool.false_eq_true] at ht
        refine Or.inl (mem_map_id_preserved s.tasks _ ?_ t ht)
        intro v
        by_cases hc : (v.id == uploadId) = true
        · simp [hc]
        · simp [hc]
  | cancel uploadId =>
    simp only [applyOp, cancelUpload] at ht
    cases hf : s.tasks.find? (fun t => t.id == uploadId) with
    | none => simp [hf] at ht; exact Or.inl ⟨t, ht, rfl⟩
    | some u =>
      simp only [hf] at ht
      by_cases hterm : u.state.isTerminal = true
      · simp [hterm] at ht; exact Or.inl ⟨t, ht, rfl⟩
      · simp only [hterm, if_false, Bool.false_eq_true] at ht
        refine Or.inl (mem_map_id_preserved s.tasks _ ?_ t ht)
        intro v
        by_cases hc : (v.id == uploadId) = true
        · simp [hc]
        · simp [hc]
  | setCallback cb =>
    simp only [applyOp, setupCompletionCallback] at ht
    exact Or.inl ⟨t, ht, rfl⟩

/-- Along any trace, every tracked task id was tracked at the trace's
start or was returned by one of the trace's `start` operations. -/
theorem runOps_ids (s : UploaderState) (ops : List UploaderOp)
    (t : UploadTask) (ht : t ∈ (ops.foldl applyOp s).tasks) :
    (∃ u ∈ s.tasks, u.id = t.id) ∨ t.id ∈ returnedIds s ops := by
  induction ops generalizing s with
  | nil => simp at ht; exact Or.inl ⟨t, ht, rfl⟩
  | cons op ops ih =>
    simp only [List.foldl_cons] at ht
    rcases ih (applyOp s op) ht with h | h
    · rcases h with ⟨u, hu, hid⟩
      rcases applyOp_ids s op u hu with h2 | h2
      · rcases h2 with ⟨v, hv, hvid⟩
        exact Or.inl ⟨v, hv, hvid.trans hid⟩
      · exact Or.inr (by simp [returnedIds, ← hid, h2])
    · exact Or.inr (by simp [returnedIds, h])

/-!
## Claims
-/

/-- C1: for every input (map codes, handedness and conversion flags,
intrinsics, image buffer, dimensions, hint strings), `_Localize` returns a
`LocalizationResult` whose `poseFound` field is `false`; it always reports
failure and never recovers a pose. -/
theorem localize_poseFound_false
    (mapCode mapSetCode : CStr) (isRightHanded convertToGeoCoordinates : Bool)
    (fx fy px py : ℚ) (imageData : Option (List Nat)) (width height : Int)
    (hintMapCodes hintPosition geoCoordinates : CStr) :
    (_Localize mapCode mapSetCode isRightHanded convertToGeoCoordinates
      fx fy px py imageData width height
      hintMapCodes hintPosition geoCoordinates).poseFound = false := rfl

/-- C2: for every input, including null image buffers and arbitrary
width/height values, `_Localize` is total — it always returns a
structurally valid `LocalizationResult` record (in particular its
`mapIds` buffer has its full declared capacity). -/
theorem localize_total_structValid
    (mapCode mapSetCode : CStr) (isRightHanded convertToGeoCoordinates : Bool)
    (fx fy px py : ℚ) (imageData : Option (List Nat)) (width height : Int)
    (hintMapCodes hintPosition geoCoordinates : CStr) :
    (_Localize mapCode mapSetCode isRightHanded convertToGeoCoordinates
      fx fy px py imageData width height
      hintMapCodes hintPosition geoCoordinates).structValid := by
  simp [_Localize, zeroLocalizationResult, LocalizationResult.structValid]

/-- C3: for every input, if the `LocalizationResult` returned by
`_Localize` has `poseFound = false`, then its position, rotation and
confidence fields all equal zero. -/
theorem localize_notFound_zeroed
    (mapCode mapSetCode : CStr) (isRightHanded convertToGeoCoordinates : Bool)
    (fx fy px py : ℚ) (imageData : Option (List Nat)) (width height : Int)
    (hintMapCodes hintPosition geoCoordinates : CStr)
    (h : (_Localize mapCode mapSetCode isRightHanded convertToGeoCoordinates
      fx fy px py imageData width height
      hintMapCodes hintPosition geoCoordinates).poseFound = false) :
    (_Localize mapCode mapSetCode isRightHanded convertToGeoCoordinates
      fx fy px py imageData width height
      hintMapCodes hintPosition geoCoordinates).positionX = 0 ∧
    (_Localize mapCode mapSetCode isRightHanded convertToGeoCoordinates
      fx fy px py imageData width height
      hintMapCodes hintPosition geoCoordinates).positionY = 0 ∧
    (_Localize mapCode mapSetCode isRightHanded convertToGeoCoordinates
      fx fy px py imageData width height
      hintMapCodes hintPosition geoCoordinates).positionZ = 0 ∧
    (_Localize mapCode mapSetCode isRightHanded convertToGeoCoordinates
      fx fy px py imageData width height
      hintMapCodes hintPosition geoCoordinates).rotationX = 0 ∧
    (_Localize mapCode mapSetCode isRightHanded convertToGeoCoordinates
      fx fy px py imageData width height
      hintMapCodes hintPosition geoCoordinates).rotationY = 0 ∧
    (_Localize mapCode mapSetCode isRightHanded convertToGeoCoordinates
      fx fy px py imageData width height
      hintMapCodes hintPosition geoCoordinates).rotationZ = 0 ∧
    (_Localize mapCode mapSetCode isRightHanded convertToGeoCoordinates
      fx fy px py imageData width height
      hintMapCodes hintPosition geoCoordinates).rotationW = 0 ∧
    (_Localize mapCode mapSetCode isRightHanded convertToGeoCoordinates
      fx fy px py imageData width height
      hintMapCodes hintPosition geoCoordinates).confidence = 0 := by
  refine ⟨rfl, rfl, rfl, rfl, rfl, rfl, rfl, rfl⟩

/-- Witness for C3 at a concrete input: a null image buffer, zero
dimensions and empty strings. -/
theorem localize_notFound_zeroed_witness :
    (_Localize [] [] false false 0 0 0 0 none 0 0 [] [] []).positionX = 0 ∧
    (_Localize [] [] false false 0 0 0 0 none 0 0 [] [] []).positionY = 0 ∧
    (_Localize [] [] false false 0 0 0 0 none 0 0 [] [] []).positionZ = 0 ∧
    (_Localize [] [] false false 0 0 0 0 none 0 0 [] [] []).rotationX = 0 ∧
    (_Localize [] [] false false 0 0 0 0 none 0 0 [] [] []).rotationY = 0 ∧
    (_Localize [] [] false false 0 0 0 0 none 0 0 [] [] []).rotationZ = 0 ∧
    (_Localize [] [] false false 0 0 0 0 none 0 0 [] [] []).rotationW = 0 ∧
    (_Localize [] [] false false 0 0 0 0 none 0 0 [] [] []).confidence = 0 :=
  localize_notFound_zeroed [] [] false false 0 0 0 0 none 0 0 [] [] [] rfl

/-- C4: for every path and identifier argument, including paths that name
no existing file, `_LoadModels` and `_LoadMaps` return `false`; load
failure is reported only as the boolean `false` with no further detail. -/
theorem loadModels_loadMaps_false (dbDirPath mapIdentifier : CStr) :
    _LoadModels = false ∧ _LoadMaps dbDirPath mapIdentifier = false :=
  ⟨rfl, rfl⟩

/-- C5: every `LocalizationResult` produced by `_Localize` carries a
`mapIds` field of fixed capacity 1024 bytes, and the map-identifier text
it holds never exceeds that capacity. -/
theorem localize_mapIds_capacity
    (mapCode mapSetCode : CStr) (isRightHanded convertToGeoCoordinates : Bool)
    (fx fy px py : ℚ) (imageData : Option (List Nat)) (width height : Int)
    (hintMapCodes hintPosition geoCoordinates : CStr) :
    mapIdsCapacity = 1024 ∧
    (_Localize mapCode mapSetCode isRightHanded convertToGeoCoordinates
      fx fy px py imageData width height
      hintMapCodes hintPosition geoCoordinates).mapIds.length = mapIdsCapacity ∧
    cStrLen (_Localize mapCode mapSetCode isRightHanded convertToGeoCoordinates
      fx fy px py imageData width height
      hintMapCodes hintPosition geoCoordinates).mapIds ≤ mapIdsCapacity := by
  refine ⟨rfl, by simp [_Localize, zeroLocalizationResult], ?_⟩
  calc cStrLen (_Localize mapCode mapSetCode isRightHanded
        convertToGeoCoordinates fx fy px py imageData width height
        hintMapCodes hintPosition geoCoordinates).mapIds
      ≤ (_Localize mapCode mapSetCode isRightHanded convertToGeoCoordinates
          fx fy px py imageData width height
          hintMapCodes hintPosition geoCoordinates).mapIds.length :=
        cStrLen_le_length _
    _ ≤ mapIdsCapacity := by simp [_Localize, zeroLocalizationResult]

/-- C6: once an upload tracked by the coordinator is in a terminal state,
no operation changes its task record or delivers a callback event for it:
`cancelUpload`, `completeUpload` and `updateProgress` on a terminal id all
leave the state unchanged and deliver nothing; in particular `cancelUpload`
on an already-terminal id is a no-op with no second callback delivery. -/
theorem terminal_absorbing (s : UploaderState) (uploadId : Int)
    (t : UploadTask)
    (hfind : s.tasks.find? (fun u => u.id == uploadId) = some t)
    (hterm : t.state.isTerminal = true) :
    cancelUpload s uploadId = (s, []) ∧
    (∀ success msg, completeUpload s uploadId success msg = (s, [])) ∧
    (∀ p, (updateProgress s uploadId p).tasks.find?
      (fun u => u.id == uploadId) = some t) := by
  refine ⟨?_, ?_, ?_⟩
  · simp [cancelUpload, hfind, hterm]
  · intro success msg; simp [completeUpload, hfind, hterm]
  · intro p
    have hpres : ∀ u : UploadTask,
        (fun v : UploadTask => v.id == uploadId)
          (if u.id == uploadId && !u.state.isTerminal then
            { u with state := .inProgress, progress := p }
          else u) = (u.id == uploadId) := by
      intro u
      by_cases hc : (u.id == uploadId && !u.state.isTerminal) = true
      · simp [hc]
      · simp [hc]
    simp only [updateProgress]
    rw [find?_map_pres _ _ hpres, hfind]
    simp [hterm]

/-- Witness for C6: a coordinator tracking one upload whose state is the
terminal `cancelled`; cancelling again, completing, or updating progress
changes nothing and delivers no callback event. -/
theorem terminal_absorbing_witness :
    cancelUpload
      { tasks := [{ id := 1, state := .cancelled, progress := 0 }],
        nextId := 2, callback := none } 1 =
      ({ tasks := [{ id := 1, state := .cancelled, progress := 0 }],
         nextId := 2, callback := none }, []) ∧
    completeUpload
      { tasks := [{ id := 1, state := .cancelled, progress := 0 }],
        nextId := 2, callback := none } 1 true none =
      ({ tasks := [{ id := 1, state := .cancelled, progress := 0 }],
         nextId := 2, callback := none }, []) ∧
    (updateProgress
      { tasks := [{ id := 1, state := .cancelled, progress := 0 }],
        nextId := 2, callback := none } 1 (1/2)).tasks.find?
        (fun u => u.id == 1) =
      some { id := 1, state := .cancelled, progress := 0 } :=
  ⟨(terminal_absorbing
      { tasks := [{ id := 1, state := .cancelled, progress := 0 }],
        nextId := 2, callback := none } 1
      { id := 1, state := .cancelled, progress := 0 } (by simp) rfl).1,
   (terminal_absorbing
      { tasks := [{ id := 1, state := .cancelled, progress := 0 }],
        nextId := 2, callback := none } 1
      { id := 1, state := .cancelled, progress := 0 } (by simp) rfl).2.1
      true none,
   (terminal_absorbing
      { tasks := [{ id := 1, state := .cancelled, progress := 0 }],
        nextId := 2, callback := none } 1
      { id := 1, state := .cancelled, progress := 0 } (by simp) rfl).2.2
      (1/2)⟩

/-- C7: for every id never returned by `startBackgroundUpload` along a
trace of coordinator operations from the initial state,
`getUploadProgress` applied to that id returns the defined sentinel
value, never an arbitrary or in-range progress value. -/
theorem getProgress_unknown_sentinel (ops : List UploaderOp) (uploadId : Int)
    (h : uploadId ∉ returnedIds initialUploaderState ops) :
    getUploadProgress (runOps ops) uploadId = progressSentinel := by
  unfold getUploadProgress
  cases hf : (runOps ops).tasks.find? (fun t => t.id == uploadId) with
  | none => rfl
  | some t =>
    exfalso
    have hmem : t ∈ (runOps ops).tasks := List.mem_of_find?_eq_some hf
    have hid : t.id = uploadId := by
      have := List.find?_some hf
      exact beq_iff_eq.mp this
    rcases runOps_ids initialUploaderState ops t hmem with h2 | h2
    · rcases h2 with ⟨u, hu, _⟩
      simp [initialUploaderState] at hu
    · exact h (hid ▸ h2)

/-- Witness for C7: after a trace that starts one upload (returning id 1)
and updates it, querying the never-returned id 7 yields the sentinel. -/
theorem getProgress_unknown_sentinel_witness :
    (7 : Int) ∉ returnedIds initialUploaderState
      [.start [47] [104] [116] true, .update 1 (1/2)] ∧
    getUploadProgress
      (runOps [.start [47] [104] [116] true, .update 1 (1/2)]) 7 =
      progressSentinel := by
  have hnot : (7 : Int) ∉ returnedIds initialUploaderState
      [.start [47] [104] [116] true, .update 1 (1/2)] := by
    simp [returnedIds, opReturnedId, startBackgroundUpload,
      initialUploaderState, applyOp, invalidUploadId]
  exact ⟨hnot, getProgress_unknown_sentinel
    [.start [47] [104] [116] true, .update 1 (1/2)] 7 hnot⟩

/-- C8: the completion callback registered via `setupCompletionCallback`
has exactly the native shape `(id : integer, success : boolean,
message : text-or-null) -> nothing`, and registration stores exactly a
function of that type. -/
theorem completionCallback_shape :
    CompletionCallback = (Int → Bool → Option CStr → Unit) ∧
    ∀ (s : UploaderState) (cb : CompletionCallback),
      (setupCompletionCallback s cb).callback = some cb :=
  ⟨rfl, fun _ _ => rfl⟩

/-- C9: `_Localize` is deterministic and its output does not depend on any
of its inputs: any two argument tuples produce equal
`LocalizationResult` records. -/
theorem localize_input_independent
    (mapCode mapSetCode : CStr) (isRightHanded convertToGeoCoordinates : Bool)
    (fx fy px py : ℚ) (imageData : Option (List Nat)) (width height : Int)
    (hintMapCodes hintPosition geoCoordinates : CStr)
    (mapCode2 mapSetCode2 : CStr)
    (isRightHanded2 convertToGeoCoordinates2 : Bool)
    (fx2 fy2 px2 py2 : ℚ) (imageData2 : Option (List Nat))
    (width2 height2 : Int)
    (hintMapCodes2 hintPosition2 geoCoordinates2 : CStr) :
    _Localize mapCode mapSetCode isRightHanded convertToGeoCoordinates
      fx fy px py imageData width height
      hintMapCodes hintPosition geoCoordinates =
    _Localize mapCode2 mapSetCode2 isRightHanded2 convertToGeoCoordinates2
      fx2 fy2 px2 py2 imageData2 width2 height2
      hintMapCodes2 hintPosition2 geoCoordinates2 := rfl

/-- C10: for every input, the `LocalizationResult` returned by `_Localize`
is fully zero-initialized: beyond the zeroed pose and confidence fields,
`num_matches` equals 0 and all 1024 bytes of `mapIds` are zero (the empty
string). -/
theorem localize_fully_zeroed
    (mapCode mapSetCode : CStr) (isRightHanded convertToGeoCoordinates : Bool)
    (fx fy px py : ℚ) (imageData : Option (List Nat)) (width height : Int)
    (hintMapCodes hintPosition geoCoordinates : CStr) :
    (_Localize mapCode mapSetCode isRightHanded convertToGeoCoordinates
      fx fy px py imageData width height
      hintMapCodes hintPosition geoCoordinates).num_matches = 0 ∧
    (_Localize mapCode mapSetCode isRightHanded convertToGeoCoordinates
      fx fy px py imageData width height
      hintMapCodes hintPosition geoCoordinates).mapIds =
      List.replicate 1024 0 ∧
    cStrLen (_Localize mapCode mapSetCode isRightHanded
      convertToGeoCoordinates fx fy px py imageData width height
      hintMapCodes hintPosition geoCoordinates).mapIds = 0 ∧
    (_Localize mapCode mapSetCode isRightHanded convertToGeoCoordinates
      fx fy px py imageData width height
      hintMapCodes hintPosition geoCoordinates) = zeroLocalizationResult := by
  exact ⟨rfl, rfl, cStrLen_replicate_zero mapIdsCapacity, rfl⟩
